import Mathlib

/-!
Verification development for the PensionMVP retirement projection engine.

The definitions below are a shallow embedding of the projection engine found
in src/unnamed/part_001: the module-level constants (lines 1271-1288), the
progressive tax function calculateUKTax (lines 1827-1862) and the year-by-year
simulation calculateProjections (lines 1864-2058).  JavaScript numbers are
modelled as exact rationals; the imperative loop is modelled as a step
function on an explicit state record, with the per-year local variables of
the loop body split into named definitions.  Output rows carry both the
rounded integer fields the source emits (Math.round) and, alongside each, the
unrounded rational value (suffix Q) so invariants about the running balance
can be stated exactly.
-/

set_option maxRecDepth 100000

namespace PensionMVP

/-! Module-level constants, src/unnamed/part_001:1271-1288. -/

/-- Growth while accumulating (part_001:1271). -/
def GROWTH_RATE_ACCUMULATION : ℚ := 0.05

/-- Growth in retirement (part_001:1272). -/
def GROWTH_RATE_DRAWDOWN : ℚ := 0.04

/-- Annual inflation (part_001:1273). -/
def INFLATION_RATE : ℚ := 0.025

/-- UK state pension age (part_001:1274). -/
def STATE_PENSION_AGE : ℤ := 67

/-- Full new state pension 2024/25 (part_001:1275). -/
def FULL_STATE_PENSION : ℚ := 11502

/-- Personal allowance (part_001:1278). -/
def PERSONAL_ALLOWANCE : ℚ := 12570

/-- Basic rate threshold (part_001:1279). -/
def BASIC_RATE_THRESHOLD : ℚ := 50270

/-- Higher rate threshold (part_001:1280). -/
def HIGHER_RATE_THRESHOLD : ℚ := 125140

/-- Basic tax rate (part_001:1281). -/
def BASIC_TAX_RATE : ℚ := 0.20

/-- Higher tax rate (part_001:1282). -/
def HIGHER_TAX_RATE : ℚ := 0.40

/-- Additional tax rate (part_001:1283). -/
def ADDITIONAL_TAX_RATE : ℚ := 0.45

/-- Tax-free fraction at crystallisation (part_001:1286). -/
def TAX_FREE_LUMP_SUM_RATE : ℚ := 0.25

/-- Default retirement age (part_001:1287). -/
def DEFAULT_RETIREMENT_AGE : ℤ := 67

/-- Projection horizon in years (part_001:1288); the loop runs i = 0..30. -/
def PROJECTION_YEARS : ℕ := 30

/-! JavaScript-coercion helpers. -/

/-- JavaScript coercion x || d for an optional numeric field: an absent
field and the number 0 are both falsy, so both select the default d. -/
def jsOrQ (v : Option ℚ) (d : ℚ) : ℚ :=
  match v with
  | none => d
  | some x => if x = 0 then d else x

/-- JavaScript coercion x || d for an optional integer field. -/
def jsOrI (v : Option ℤ) (d : ℤ) : ℤ :=
  match v with
  | none => d
  | some x => if x = 0 then d else x

/-- JavaScript truthiness of a nullable integer: null and 0 are falsy. -/
def jsTruthyOptInt (v : Option ℤ) : Bool :=
  match v with
  | none => false
  | some x => decide (x ≠ 0)

/-- JavaScript Math.round: round half toward positive infinity. -/
def jsRound (q : ℚ) : ℤ := ⌊q + 1 / 2⌋

/-! Tax calculator, src/unnamed/part_001:1827-1862. -/

/-- calculateUKTax (part_001:1827-1862): UK income tax using progressive
bands with the personal-allowance taper above 100000. -/
def calculateUKTax (totalIncome : ℚ) : ℚ :=
  if totalIncome ≤ PERSONAL_ALLOWANCE then 0
  else
    let effectiveAllowance : ℚ :=
      if totalIncome > 100000 then
        max 0 (PERSONAL_ALLOWANCE - (totalIncome - 100000) / 2)
      else PERSONAL_ALLOWANCE
    let remainingIncome := totalIncome - effectiveAllowance
    if remainingIncome ≤ 0 then 0
    else
      let basicBand := min remainingIncome (BASIC_RATE_THRESHOLD - PERSONAL_ALLOWANCE)
      let tax1 := if basicBand > 0 then basicBand * BASIC_TAX_RATE else 0
      let rem1 := if basicBand > 0 then remainingIncome - basicBand else remainingIncome
      let higherBand := min rem1 (HIGHER_RATE_THRESHOLD - BASIC_RATE_THRESHOLD)
      let tax2 := if higherBand > 0 then tax1 + higherBand * HIGHER_TAX_RATE else tax1
      let rem2 := if higherBand > 0 then rem1 - higherBand else rem1
      if rem2 > 0 then tax2 + rem2 * ADDITIONAL_TAX_RATE else tax2

/-! Data model. -/

/-- One life event record as consumed by the engine (part_001:1985-1991):
fields event_name, event_age, event_year, cost; absent numeric fields make
the corresponding comparison fail (Number(undefined) is NaN). -/
structure LifeEvent where
  event_name : String
  event_age : Option ℤ
  event_year : Option ℤ
  cost : Option ℚ
deriving DecidableEq

/-- The profile snapshot read by calculateProjections (part_001:1873-1894).
currentAge stands for the age the source derives from date_of_birth at run
start (part_001:1873-1882); none models an absent date_of_birth. -/
structure BaseData where
  currentAge : Option ℤ
  total_pension_value : Option ℚ
  monthly_contribution : Option ℚ
  property_value : Option ℚ
  total_debt : Option ℚ
  state_pension_amount : Option ℚ
  annual_income_needed : Option ℚ
  planned_retirement_age : Option ℤ
  lump_sum_taken : Option Bool
  still_contributing : Option Bool
deriving DecidableEq

/-- Run-wide values computed once before the loop (part_001:1884-1909). -/
structure Params where
  currentYear : ℤ
  currentAge : Option ℤ
  pensionPot0 : ℚ
  annualContribution : ℚ
  propertyValue : ℚ
  mortgageBalance0 : ℚ
  statePensionBase : ℚ
  annualIncomeNeeded : ℚ
  retirementAge : ℤ
  lumpSumTaken0 : Bool
  stillContributing : Bool
  mortgageMonthlyPayment : ℚ
  events : List LifeEvent
deriving DecidableEq

/-- Normalisation of the profile into run parameters (part_001:1884-1909),
using JavaScript || defaulting; mortgageMonthlyPayment is the 25-year 4%
amortization payment of part_001:1909. -/
def mkParams (bd : BaseData) (events : List LifeEvent) (currentYear : ℤ) : Params :=
  let mortgageBalance0 := jsOrQ bd.total_debt 0
  { currentYear := currentYear
    currentAge := bd.currentAge
    pensionPot0 := jsOrQ bd.total_pension_value 0
    annualContribution := jsOrQ bd.monthly_contribution 0 * 12
    propertyValue := jsOrQ bd.property_value 0
    mortgageBalance0 := mortgageBalance0
    statePensionBase := jsOrQ bd.state_pension_amount FULL_STATE_PENSION
    annualIncomeNeeded := jsOrQ bd.annual_income_needed 25000
    retirementAge := jsOrI bd.planned_retirement_age DEFAULT_RETIREMENT_AGE
    lumpSumTaken0 := bd.lump_sum_taken = some true
    stillContributing := bd.still_contributing ≠ some false
    mortgageMonthlyPayment :=
      if mortgageBalance0 > 0 then
        (mortgageBalance0 * 0.04 / 12) / (1 - (1 + 0.04 / 12) ^ (-300 : ℤ))
      else 0
    events := events }

/-- The mutable loop state threaded through the years
(part_001:1885, 1889, 1901-1906). -/
structure SimState where
  pensionPot : ℚ
  mortgageBalance : ℚ
  hasRetired : Bool
  hasTakenLumpSum : Bool
  taxFreeCashReceived : ℚ
  cumulativeDrawdown : ℚ
  fundsDepleted : Bool
  depletionAge : Option ℤ
deriving DecidableEq

/-- Loop state before the first iteration. -/
def initState (P : Params) : SimState :=
  { pensionPot := P.pensionPot0
    mortgageBalance := P.mortgageBalance0
    hasRetired := false
    hasTakenLumpSum := P.lumpSumTaken0
    taxFreeCashReceived := 0
    cumulativeDrawdown := 0
    fundsDepleted := false
    depletionAge := none }

/-- One output row (part_001:2027-2048).  Each rounded field of the source
is paired with the unrounded rational (suffix Q) it is the Math.round of. -/
structure Row where
  year : ℤ
  age : Option ℤ
  phase : String
  pensionStart : ℤ
  pensionStartQ : ℚ
  pensionTotal : ℤ
  pensionTotalQ : ℚ
  pensionContribution : ℤ
  pensionContributionQ : ℚ
  investmentGrowth : ℤ
  investmentGrowthQ : ℚ
  pensionDrawdown : ℤ
  pensionDrawdownQ : ℚ
  lumpSum : ℤ
  lumpSumQ : ℚ
  statePension : ℤ
  statePensionQ : ℚ
  totalIncome : ℤ
  totalIncomeQ : ℚ
  taxes : ℤ
  taxesQ : ℚ
  netIncome : ℤ
  netIncomeQ : ℚ
  incomeNeeded : ℤ
  incomeNeededQ : ℚ
  incomeShortfall : ℤ
  incomeShortfallQ : ℚ
  propertyEquity : ℤ
  propertyEquityQ : ℚ
  netWorth : ℤ
  netWorthQ : ℚ
  lifeEvents : Option String
  lifeEventCost : ℤ
  lifeEventCostQ : ℚ
  fundsDepleted : Bool
deriving DecidableEq

/-! Per-year quantities of the loop body (part_001:1911-2048), split into
named definitions; i is the loop index and st the state entering year i. -/

/-- Calendar year of iteration i (part_001:1912). -/
def yearAt (P : Params) (i : ℕ) : ℤ := P.currentYear + i

/-- Age at iteration i, when known (part_001:1913). -/
def ageAt (P : Params) (i : ℕ) : Option ℤ := P.currentAge.map (fun a => a + i)

/-- Retirement test: age known and at least retirementAge (part_001:1916). -/
def isRetired (P : Params) (i : ℕ) : Bool :=
  match ageAt P i with
  | none => false
  | some a => decide (P.retirementAge ≤ a)

/-- State-pension-age test (part_001:1917). -/
def isStatePensionAge (P : Params) (i : ℕ) : Bool :=
  match ageAt P i with
  | none => false
  | some a => decide (STATE_PENSION_AGE ≤ a)

/-- Phase-dependent growth rate (part_001:1922). -/
def growthRateAt (P : Params) (i : ℕ) : ℚ :=
  if isRetired P i then GROWTH_RATE_DRAWDOWN else GROWTH_RATE_ACCUMULATION

/-- Investment growth of year i: applied from the second row on and only
while funds are not depleted (part_001:1928-1932). -/
def investmentGrowthOf (P : Params) (st : SimState) (i : ℕ) : ℚ :=
  if 0 < i ∧ st.fundsDepleted = false then st.pensionPot * growthRateAt P i else 0

/-- Pot after growth is added (part_001:1931). -/
def potAfterGrowth (P : Params) (st : SimState) (i : ℕ) : ℚ :=
  st.pensionPot + investmentGrowthOf P st i

/-- Contribution of year i: only while working and still contributing
(part_001:1935-1939). -/
def contributionOf (P : Params) (i : ℕ) : ℚ :=
  if isRetired P i = false ∧ P.stillContributing = true then P.annualContribution else 0

/-- Pot after contributions (part_001:1938). -/
def potAfterContrib (P : Params) (st : SimState) (i : ℕ) : ℚ :=
  potAfterGrowth P st i + contributionOf P i

/-- The transition test: retired this year for the first time
(part_001:1918). -/
def justRetired (P : Params) (st : SimState) (i : ℕ) : Bool :=
  isRetired P i && !st.hasRetired

/-- Guard of the lump-sum crystallisation (part_001:1943). -/
def lumpFires (P : Params) (st : SimState) (i : ℕ) : Bool :=
  justRetired P st i && !st.hasTakenLumpSum && decide (potAfterContrib P st i > 0)

/-- Tax-free lump sum of year i (part_001:1942-1948). -/
def lumpSumOf (P : Params) (st : SimState) (i : ℕ) : ℚ :=
  if lumpFires P st i then potAfterContrib P st i * TAX_FREE_LUMP_SUM_RATE else 0

/-- Pot after the lump sum is removed (part_001:1945). -/
def potAfterLump (P : Params) (st : SimState) (i : ℕ) : ℚ :=
  potAfterContrib P st i - lumpSumOf P st i

/-- State pension of year i, inflation-adjusted, gated on state pension age
(part_001:1951-1953). -/
def statePensionAt (P : Params) (i : ℕ) : ℚ :=
  if isStatePensionAge P i then P.statePensionBase * (1 + INFLATION_RATE) ^ i else 0

/-- Income needed in year i, inflation-adjusted, only once retired
(part_001:1956-1958). -/
def incomeNeededAt (P : Params) (i : ℕ) : ℚ :=
  if isRetired P i then P.annualIncomeNeeded * (1 + INFLATION_RATE) ^ i else 0

/-- Income gap to be met by drawdown (part_001:1964). -/
def incomeGapAt (P : Params) (i : ℕ) : ℚ :=
  max 0 (incomeNeededAt P i - statePensionAt P i)

/-- Whole guard of the drawdown block (part_001:1963-1965). -/
def drawdownActive (P : Params) (st : SimState) (i : ℕ) : Prop :=
  isRetired P i = true ∧ st.fundsDepleted = false ∧ 0 < incomeGapAt P i

instance (P : Params) (st : SimState) (i : ℕ) : Decidable (drawdownActive P st i) := by
  unfold drawdownActive; infer_instance

/-- Pension drawdown of year i: the income gap, clamped by the pot
(part_001:1961-1979). -/
def drawdownOf (P : Params) (st : SimState) (i : ℕ) : ℚ :=
  if drawdownActive P st i then
    if incomeGapAt P i ≤ potAfterLump P st i then incomeGapAt P i else potAfterLump P st i
  else 0

/-- Income shortfall of year i: set only on the depleting row
(part_001:1973). -/
def shortfallOf (P : Params) (st : SimState) (i : ℕ) : ℚ :=
  if drawdownActive P st i ∧ potAfterLump P st i < incomeGapAt P i then
    incomeGapAt P i - potAfterLump P st i
  else 0

/-- Pot after drawdown; in the clamped branch the source zeroes the pot,
which equals subtracting the whole remaining pot (part_001:1968, 1974). -/
def potAfterDD (P : Params) (st : SimState) (i : ℕ) : ℚ :=
  potAfterLump P st i - drawdownOf P st i

/-- Depletion flag after year i: set in the clamped drawdown branch and
never cleared (part_001:1975). -/
def depletedAfter (P : Params) (st : SimState) (i : ℕ) : Bool :=
  st.fundsDepleted ||
    (isRetired P i && decide (0 < incomeGapAt P i) &&
      decide (potAfterLump P st i < incomeGapAt P i))

/-- depletionAge after year i (part_001:1976): assigned on the depleting
row when still falsy (null, or age 0). -/
def depletionAgeAfter (P : Params) (st : SimState) (i : ℕ) : Option ℤ :=
  if drawdownActive P st i ∧ potAfterLump P st i < incomeGapAt P i then
    if jsTruthyOptInt st.depletionAge then st.depletionAge else ageAt P i
  else st.depletionAge

/-- Event selection of year i (part_001:1984-1992): when age is known, an
event matches if its event_age equals the age or its event_year equals the
calendar year; when age is unknown the whole block is skipped. -/
def eventMatches (e : LifeEvent) (a : ℤ) (year : ℤ) : Bool :=
  decide (e.event_age = some a) || decide (e.event_year = some year)

/-- Summed signed cost of the events applied in year i (part_001:1982-1992). -/
def lifeEventCostAt (P : Params) (i : ℕ) : ℚ :=
  match ageAt P i with
  | none => 0
  | some a =>
    P.events.foldl
      (fun acc e => if eventMatches e a (yearAt P i) then acc + e.cost.getD 0 else acc) 0

/-- Names of the events applied in year i (part_001:1989); the source pushes
names in the same traversal that sums the costs. -/
def lifeEventNamesAt (P : Params) (i : ℕ) : List String :=
  match ageAt P i with
  | none => []
  | some a => (P.events.filter (fun e => eventMatches e a (yearAt P i))).map LifeEvent.event_name

/-- Pot after life events (part_001:1995-2003): a positive total cost is
subtracted with a floor of 0, a negative total is added unconditionally. -/
def potAfterEvents (P : Params) (st : SimState) (i : ℕ) : ℚ :=
  if lifeEventCostAt P i ≠ 0 then
    if lifeEventCostAt P i > 0 then max 0 (potAfterDD P st i - lifeEventCostAt P i)
    else potAfterDD P st i - lifeEventCostAt P i
  else potAfterDD P st i

/-- Mortgage balance after the year's paydown (part_001:2007); the unused
local mortgagePayment of part_001:2006 is not modelled. -/
def mortgageBalanceAfter (P : Params) (st : SimState) : ℚ :=
  max 0 (st.mortgageBalance - P.mortgageMonthlyPayment * 12 * 0.3)

/-- Cash-on-hand after year i: the source assigns taxFreeCashReceived on the
crystallisation row (part_001:1946). -/
def cashReceivedAfter (P : Params) (st : SimState) (i : ℕ) : ℚ :=
  if lumpFires P st i then lumpSumOf P st i else st.taxFreeCashReceived

/-- Total income of year i (part_001:2010). -/
def totalIncomeAt (P : Params) (st : SimState) (i : ℕ) : ℚ :=
  statePensionAt P i + drawdownOf P st i + lumpSumOf P st i

/-- Taxable income of year i: the lump sum is excluded (part_001:2013). -/
def taxableIncomeAt (P : Params) (st : SimState) (i : ℕ) : ℚ :=
  statePensionAt P i + drawdownOf P st i

/-- Property equity of year i (part_001:2020-2022), read after the mortgage
update of part_001:2007. -/
def propertyEquityAt (P : Params) (st : SimState) (i : ℕ) : ℚ :=
  if P.propertyValue > 0 then
    P.propertyValue * (1.03 : ℚ) ^ i - mortgageBalanceAfter P st
  else 0

/-- Net worth of year i (part_001:2025). -/
def netWorthAt (P : Params) (st : SimState) (i : ℕ) : ℚ :=
  potAfterEvents P st i + propertyEquityAt P st i + cashReceivedAfter P st i

/-- The row pushed for year i (part_001:2027-2048). -/
def rowOf (P : Params) (st : SimState) (i : ℕ) : Row :=
  { year := yearAt P i
    age := ageAt P i
    phase := if isRetired P i then "Retirement" else "Accumulation"
    pensionStart := jsRound st.pensionPot
    pensionStartQ := st.pensionPot
    pensionTotal := jsRound (potAfterEvents P st i)
    pensionTotalQ := potAfterEvents P st i
    pensionContribution := jsRound (contributionOf P i)
    pensionContributionQ := contributionOf P i
    investmentGrowth := jsRound (investmentGrowthOf P st i)
    investmentGrowthQ := investmentGrowthOf P st i
    pensionDrawdown := jsRound (drawdownOf P st i)
    pensionDrawdownQ := drawdownOf P st i
    lumpSum := jsRound (lumpSumOf P st i)
    lumpSumQ := lumpSumOf P st i
    statePension := jsRound (statePensionAt P i)
    statePensionQ := statePensionAt P i
    totalIncome := jsRound (totalIncomeAt P st i)
    totalIncomeQ := totalIncomeAt P st i
    taxes := jsRound (calculateUKTax (taxableIncomeAt P st i))
    taxesQ := calculateUKTax (taxableIncomeAt P st i)
    netIncome := jsRound (totalIncomeAt P st i - calculateUKTax (taxableIncomeAt P st i))
    netIncomeQ := totalIncomeAt P st i - calculateUKTax (taxableIncomeAt P st i)
    incomeNeeded := jsRound (incomeNeededAt P i)
    incomeNeededQ := incomeNeededAt P i
    incomeShortfall := jsRound (shortfallOf P st i)
    incomeShortfallQ := shortfallOf P st i
    propertyEquity := jsRound (propertyEquityAt P st i)
    propertyEquityQ := propertyEquityAt P st i
    netWorth := jsRound (netWorthAt P st i)
    netWorthQ := netWorthAt P st i
    lifeEvents :=
      if (lifeEventNamesAt P i).isEmpty then none
      else some (String.intercalate ", " (lifeEventNamesAt P i))
    lifeEventCost := jsRound (lifeEventCostAt P i)
    lifeEventCostQ := lifeEventCostAt P i
    fundsDepleted := depletedAfter P st i }

/-- The loop state after year i completes (part_001:1911-2049). -/
def nextState (P : Params) (st : SimState) (i : ℕ) : SimState :=
  { pensionPot := potAfterEvents P st i
    mortgageBalance := mortgageBalanceAfter P st
    hasRetired := isRetired P i
    hasTakenLumpSum := st.hasTakenLumpSum || lumpFires P st i
    taxFreeCashReceived := cashReceivedAfter P st i
    cumulativeDrawdown :=
      st.cumulativeDrawdown +
        (if drawdownActive P st i ∧ incomeGapAt P i ≤ potAfterLump P st i then
          incomeGapAt P i else 0)
    fundsDepleted := depletedAfter P st i
    depletionAge := depletionAgeAfter P st i }

/-- State entering iteration i: the i-fold iterate of the loop body. -/
def stateAt (P : Params) : ℕ → SimState
  | 0 => initState P
  | n + 1 => nextState P (stateAt P n) n

/-- Row produced for iteration i. -/
def rowAt (P : Params) (i : ℕ) : Row := rowOf P (stateAt P i) i

/-- The rows produced by n iterations of the loop starting at index i. -/
def simRun (P : Params) : ℕ → SimState → ℕ → List Row
  | _, _, 0 => []
  | i, st, n + 1 => rowOf P st i :: simRun P (i + 1) (nextState P st i) n

/-- calculateProjections (part_001:1864-2058): the full ordered sequence of
yearly rows for one invocation.  currentYear stands for the calendar year
read at run start (part_001:1870). -/
def calculateProjections (bd : BaseData) (events : List LifeEvent) (currentYear : ℤ) :
    List Row :=
  simRun (mkParams bd events currentYear) 0 (initState (mkParams bd events currentYear))
    (PROJECTION_YEARS + 1)

/-- Non-negativity of every optional currency field of a profile, absent
fields counting as 0. -/
def nonnegCurrencyFields (bd : BaseData) : Prop :=
  0 ≤ bd.total_pension_value.getD 0 ∧ 0 ≤ bd.monthly_contribution.getD 0 ∧
  0 ≤ bd.property_value.getD 0 ∧ 0 ≤ bd.total_debt.getD 0 ∧
  0 ≤ bd.state_pension_amount.getD 0 ∧ 0 ≤ bd.annual_income_needed.getD 0

instance (bd : BaseData) : Decidable (nonnegCurrencyFields bd) := by
  unfold nonnegCurrencyFields; infer_instance

/-- Effective personal allowance after the taper (part_001:1833-1837). -/
def effectiveAllowanceOf (totalIncome : ℚ) : ℚ :=
  if totalIncome > 100000 then max 0 (PERSONAL_ALLOWANCE - (totalIncome - 100000) / 2)
  else PERSONAL_ALLOWANCE

/-- Closed form of the banded tax on the income r above the effective
allowance: basic slice, higher slice, unbounded additional slice. -/
def taxBands (r : ℚ) : ℚ :=
  min r (BASIC_RATE_THRESHOLD - PERSONAL_ALLOWANCE) * BASIC_TAX_RATE +
  min (max (r - (BASIC_RATE_THRESHOLD - PERSONAL_ALLOWANCE)) 0)
      (HIGHER_RATE_THRESHOLD - BASIC_RATE_THRESHOLD) * HIGHER_TAX_RATE +
  max (r - (HIGHER_RATE_THRESHOLD - PERSONAL_ALLOWANCE)) 0 * ADDITIONAL_TAX_RATE

/-- The event-selection rule the code implements (part_001:1984-1992),
written as filter-and-sum: with a known age, an event is applied if its
event_age equals the age or its event_year equals the calendar year; with
an unknown age no event is applied. -/
def codeSelectedCost (events : List LifeEvent) (age : Option ℤ) (year : ℤ) : ℚ :=
  match age with
  | some a => ((events.filter (fun e => eventMatches e a year)).map (fun e => e.cost.getD 0)).sum
  | none => 0

/-- Modelled from the spec (section 4.3): select every life event whose
triggerAge equals the current age or, when age is unknown, whose
triggerYear equals the current calendar year, and sum their signed
amounts.  Stated for comparison with the selection rule of the code. -/
def specSelectedCost (events : List LifeEvent) (age : Option ℤ) (year : ℤ) : ℚ :=
  match age with
  | some a =>
    ((events.filter (fun e => decide (e.event_age = some a))).map (fun e => e.cost.getD 0)).sum
  | none =>
    ((events.filter (fun e => decide (e.event_year = some year))).map (fun e => e.cost.getD 0)).sum

/-! Concrete profiles and event lists used in the closed-form theorems. -/

/-- Retired profile: age 70, pot 1000, income need 12000, lump sum
already taken, no property or debt. -/
def bdRet : BaseData :=
  { currentAge := some 70, total_pension_value := some 1000, monthly_contribution := none,
    property_value := none, total_debt := none, state_pension_amount := none,
    annual_income_needed := some 12000, planned_retirement_age := none,
    lump_sum_taken := some true, still_contributing := some false }

/-- One 10000 expense at age 70, larger than what is left in the pot there. -/
def evRet : List LifeEvent :=
  [{ event_name := "roof repair", event_age := some 70, event_year := none,
     cost := some 10000 }]

/-- Retired profile with a tiny pot, so the default income need depletes it
in the first simulated year. -/
def bdDep : BaseData := { bdRet with total_pension_value := some 100, annual_income_needed := none }

/-- Windfall at age 72, arriving after the run has depleted. -/
def evDep : List LifeEvent :=
  [{ event_name := "inheritance", event_age := some 72, event_year := none,
     cost := some (-5000) }]

/-- Working-age profile, age 50, no contributions. -/
def bdC4 : BaseData :=
  { currentAge := some 50, total_pension_value := some 10000, monthly_contribution := none,
    property_value := none, total_debt := none, state_pension_amount := none,
    annual_income_needed := none, planned_retirement_age := none,
    lump_sum_taken := some true, still_contributing := some false }

/-- An event whose trigger age never matches any simulated age but whose
trigger year matches calendar year 2028. -/
def evC4 : List LifeEvent :=
  [{ event_name := "bonus", event_age := some 99, event_year := some 2028,
     cost := some (-20000) }]

/-- An event with only a year trigger, for the age-unknown case. -/
def evC4b : List LifeEvent :=
  [{ event_name := "gift", event_age := none, event_year := some 2025,
     cost := some (-20000) }]

/-- The working-age profile with its date of birth removed. -/
def bdC4b : BaseData := { bdC4 with currentAge := none }

/-- Accumulating profile, age 62, tuned so the pot is exactly 200000 after
growth in the retirement-transition row (4 years at 5 percent, then one at
4 percent). -/
def bdC6 : BaseData :=
  { currentAge := some 62, total_pension_value := some (200000 / ((1.05 : ℚ) ^ 4 * 1.04)),
    monthly_contribution := none, property_value := none, total_debt := none,
    state_pension_amount := none, annual_income_needed := some 20000,
    planned_retirement_age := none, lump_sum_taken := none, still_contributing := some false }

/-- Retired profile with every optional field absent. -/
def bdC8 : BaseData :=
  { currentAge := some 70, total_pension_value := none, monthly_contribution := none,
    property_value := none, total_debt := none, state_pension_amount := none,
    annual_income_needed := none, planned_retirement_age := none,
    lump_sum_taken := none, still_contributing := none }

/-- Profile with a retirement age of 1, far below any sane minimum. -/
def bdC9 : BaseData := { bdC8 with currentAge := some 30, planned_retirement_age := some 1 }

/-- Retired profile that declares a state pension entitlement of exactly 0. -/
def bdC10 : BaseData := { bdRet with state_pension_amount := some 0 }

/-! Basic structural lemmas about the run. -/

lemma stateAt_succ (P : Params) (n : ℕ) :
    stateAt P (n + 1) = nextState P (stateAt P n) n := rfl

lemma simRun_length (P : Params) : ∀ n i st, (simRun P i st n).length = n := by
  intro n
  induction n with
  | zero => intro i st; rfl
  | succ m ih => intro i st; simp [simRun, ih]

lemma simRun_get (P : Params) :
    ∀ n i j (h : j < (simRun P i (stateAt P i) n).length),
      (simRun P i (stateAt P i) n).get ⟨j, h⟩ = rowAt P (i + j) := by
  intro n
  induction n with
  | zero => intro i j h; simp [simRun] at h
  | succ m ih =>
    intro i j h
    match j with
    | 0 => simp [simRun, rowAt]
    | Nat.succ k =>
      have hst : nextState P (stateAt P i) i = stateAt P (i + 1) := rfl
      have h2 : k < (simRun P (i + 1) (stateAt P (i + 1)) m).length := by
        have := h
        simp [simRun, simRun_length] at this ⊢
        omega
      have := ih (i + 1) k h2
      simp only [simRun, hst, List.get_cons_succ]
      rw [show i + (k + 1) = (i + 1) + k by omega]
      exact (by simpa using this)

lemma calculateProjections_length (bd : BaseData) (events : List LifeEvent)
    (currentYear : ℤ) :
    (calculateProjections bd events currentYear).length = PROJECTION_YEARS + 1 := by
  unfold calculateProjections
  exact simRun_length _ _ _ _

lemma calculateProjections_get (bd : BaseData) (events : List LifeEvent)
    (currentYear : ℤ) (j : ℕ) (h : j < (calculateProjections bd events currentYear).length) :
    (calculateProjections bd events currentYear).get ⟨j, h⟩ =
      rowAt (mkParams bd events currentYear) j := by
  have h' : j < (simRun (mkParams bd events currentYear) 0
      (stateAt (mkParams bd events currentYear) 0) (PROJECTION_YEARS + 1)).length := h
  have hg := simRun_get (mkParams bd events currentYear) (PROJECTION_YEARS + 1) 0 j h'
  show (simRun (mkParams bd events currentYear) 0
      (stateAt (mkParams bd events currentYear) 0) (PROJECTION_YEARS + 1)).get ⟨j, h'⟩ =
    rowAt (mkParams bd events currentYear) j
  simpa using hg

lemma mem_calculateProjections (bd : BaseData) (events : List LifeEvent)
    (currentYear : ℤ) (r : Row) :
    r ∈ calculateProjections bd events currentYear ↔
      ∃ j, j ≤ PROJECTION_YEARS ∧ r = rowAt (mkParams bd events currentYear) j := by
  constructor
  · intro hr
    obtain ⟨⟨j, hj⟩, hget⟩ := List.mem_iff_get.mp hr
    refine ⟨j, ?_, ?_⟩
    · have := hj; rw [calculateProjections_length] at this; omega
    · rw [← hget, calculateProjections_get]
  · rintro ⟨j, hj, rfl⟩
    have hl : j < (calculateProjections bd events currentYear).length := by
      rw [calculateProjections_length]; omega
    rw [← calculateProjections_get bd events currentYear j hl]
    exact List.get_mem _ _ _

/-! Projections of the row fields, used to move between rows and the state. -/

lemma rowAt_pensionStartQ (P : Params) (i : ℕ) :
    (rowAt P i).pensionStartQ = (stateAt P i).pensionPot := rfl

lemma rowAt_pensionTotalQ (P : Params) (i : ℕ) :
    (rowAt P i).pensionTotalQ = potAfterEvents P (stateAt P i) i := rfl

lemma rowAt_pensionTotalQ_state (P : Params) (i : ℕ) :
    (rowAt P i).pensionTotalQ = (stateAt P (i + 1)).pensionPot := rfl

lemma rowAt_fundsDepleted (P : Params) (i : ℕ) :
    (rowAt P i).fundsDepleted = (stateAt P (i + 1)).fundsDepleted := rfl

/-! Monotonicity of the retirement and depletion flags. -/

lemma isRetired_mono (P : Params) {i j : ℕ} (hij : i ≤ j)
    (h : isRetired P i = true) : isRetired P j = true := by
  unfold isRetired ageAt at h ⊢
  cases hA : P.currentAge with
  | none => rw [hA] at h; simp at h
  | some a =>
    rw [hA] at h
    simp only [Option.map_some', decide_eq_true_eq] at h ⊢
    omega

lemma depleted_step (P : Params) (st : SimState) (i : ℕ)
    (h : st.fundsDepleted = true) : (nextState P st i).fundsDepleted = true := by
  simp [nextState, depletedAfter, h]

lemma depleted_mono (P : Params) {i j : ℕ} (hij : i ≤ j)
    (h : (stateAt P i).fundsDepleted = true) : (stateAt P j).fundsDepleted = true := by
  induction j with
  | zero =>
    have : i = 0 := Nat.le_zero.mp hij
    rw [this] at h; exact h
  | succ m ih =>
    rcases Nat.lt_or_ge i (m + 1) with hlt | hge
    · have hm : (stateAt P m).fundsDepleted = true := ih (by omega)
      rw [stateAt_succ]; exact depleted_step P _ m hm
    · have : i = m + 1 := by omega
      rw [this] at h; exact h

lemma rowAt_lumpSumQ (P : Params) (i : ℕ) :
    (rowAt P i).lumpSumQ = lumpSumOf P (stateAt P i) i := rfl

lemma rowAt_drawdownQ (P : Params) (i : ℕ) :
    (rowAt P i).pensionDrawdownQ = drawdownOf P (stateAt P i) i := rfl

lemma rowAt_growthQ (P : Params) (i : ℕ) :
    (rowAt P i).investmentGrowthQ = investmentGrowthOf P (stateAt P i) i := rfl

lemma rowAt_contributionQ (P : Params) (i : ℕ) :
    (rowAt P i).pensionContributionQ = contributionOf P i := rfl

lemma rowAt_shortfallQ (P : Params) (i : ℕ) :
    (rowAt P i).incomeShortfallQ = shortfallOf P (stateAt P i) i := rfl

lemma rowAt_lifeEventCostQ (P : Params) (i : ℕ) :
    (rowAt P i).lifeEventCostQ = lifeEventCostAt P i := rfl

lemma rowAt_statePensionQ (P : Params) (i : ℕ) :
    (rowAt P i).statePensionQ = statePensionAt P i := rfl

lemma rowAt_incomeNeededQ (P : Params) (i : ℕ) :
    (rowAt P i).incomeNeededQ = incomeNeededAt P i := rfl

lemma rowAt_totalIncomeQ (P : Params) (i : ℕ) :
    (rowAt P i).totalIncomeQ = totalIncomeAt P (stateAt P i) i := rfl

lemma rowAt_taxesQ (P : Params) (i : ℕ) :
    (rowAt P i).taxesQ = calculateUKTax (taxableIncomeAt P (stateAt P i) i) := rfl

lemma rowAt_netWorthQ (P : Params) (i : ℕ) :
    (rowAt P i).netWorthQ = netWorthAt P (stateAt P i) i := rfl

lemma rowAt_propertyEquityQ (P : Params) (i : ℕ) :
    (rowAt P i).propertyEquityQ = propertyEquityAt P (stateAt P i) i := rfl

lemma depleted_implies_retired (P : Params) :
    ∀ j, (stateAt P j).fundsDepleted = true → isRetired P j = true := by
  intro j
  induction j with
  | zero => intro h; simp [stateAt, initState] at h
  | succ m ih =>
    intro h
    rw [stateAt_succ] at h
    simp only [nextState, depletedAfter, Bool.or_eq_true, Bool.and_eq_true] at h
    rcases h with h | ⟨⟨hr, _⟩, _⟩
    · exact isRetired_mono P (Nat.le_succ m) (ih h)
    · exact isRetired_mono P (Nat.le_succ m) hr

/-! Non-negativity of the running balance through each stage of the year. -/

lemma growthRateAt_nonneg (P : Params) (i : ℕ) : 0 ≤ growthRateAt P i := by
  unfold growthRateAt GROWTH_RATE_DRAWDOWN GROWTH_RATE_ACCUMULATION
  split <;> norm_num

lemma investmentGrowthOf_nonneg (P : Params) (st : SimState) (i : ℕ)
    (h : 0 ≤ st.pensionPot) : 0 ≤ investmentGrowthOf P st i := by
  unfold investmentGrowthOf
  split
  · exact mul_nonneg h (growthRateAt_nonneg P i)
  · exact le_refl 0

lemma potAfterGrowth_nonneg (P : Params) (st : SimState) (i : ℕ)
    (h : 0 ≤ st.pensionPot) : 0 ≤ potAfterGrowth P st i :=
  add_nonneg h (investmentGrowthOf_nonneg P st i h)

lemma contributionOf_nonneg (P : Params) (i : ℕ) (hc : 0 ≤ P.annualContribution) :
    0 ≤ contributionOf P i := by
  unfold contributionOf
  split
  · exact hc
  · exact le_refl 0

lemma potAfterContrib_nonneg (P : Params) (st : SimState) (i : ℕ)
    (h : 0 ≤ st.pensionPot) (hc : 0 ≤ P.annualContribution) :
    0 ≤ potAfterContrib P st i :=
  add_nonneg (potAfterGrowth_nonneg P st i h) (contributionOf_nonneg P i hc)

lemma potAfterLump_nonneg (P : Params) (st : SimState) (i : ℕ)
    (h : 0 ≤ st.pensionPot) (hc : 0 ≤ P.annualContribution) :
    0 ≤ potAfterLump P st i := by
  have hpac := potAfterContrib_nonneg P st i h hc
  unfold potAfterLump lumpSumOf
  split
  · simp only [TAX_FREE_LUMP_SUM_RATE]
    nlinarith
  · linarith

lemma potAfterDD_nonneg (P : Params) (st : SimState) (i : ℕ)
    (h : 0 ≤ st.pensionPot) (hc : 0 ≤ P.annualContribution) :
    0 ≤ potAfterDD P st i := by
  have hpal := potAfterLump_nonneg P st i h hc
  unfold potAfterDD drawdownOf
  split_ifs with h1 h2
  · linarith
  · linarith
  · linarith

lemma potAfterEvents_nonneg (P : Params) (st : SimState) (i : ℕ)
    (h : 0 ≤ st.pensionPot) (hc : 0 ≤ P.annualContribution) :
    0 ≤ potAfterEvents P st i := by
  have hdd := potAfterDD_nonneg P st i h hc
  unfold potAfterEvents
  split_ifs with h1 h2
  · exact le_max_left 0 _
  · push_neg at h2
    have : lifeEventCostAt P i < 0 := lt_of_le_of_ne h2 h1
    linarith
  · linarith

lemma stateAt_pot_nonneg (P : Params) (h0 : 0 ≤ P.pensionPot0)
    (hc : 0 ≤ P.annualContribution) : ∀ j, 0 ≤ (stateAt P j).pensionPot := by
  intro j
  induction j with
  | zero => exact h0
  | succ m ih => exact potAfterEvents_nonneg P (stateAt P m) m ih hc

/-! Exact bookkeeping of the balance within one year. -/

lemma potAfterDD_eq (P : Params) (st : SimState) (i : ℕ) :
    potAfterDD P st i = st.pensionPot + investmentGrowthOf P st i + contributionOf P i
      - lumpSumOf P st i - drawdownOf P st i := by
  unfold potAfterDD potAfterLump potAfterContrib potAfterGrowth
  ring

lemma potAfterEvents_eq_max (P : Params) (st : SimState) (i : ℕ)
    (h : 0 ≤ potAfterDD P st i) :
    potAfterEvents P st i = max 0 (potAfterDD P st i - lifeEventCostAt P i) := by
  unfold potAfterEvents
  split_ifs with h1 h2
  · rfl
  · push_neg at h2
    rw [max_eq_right]
    linarith
  · push_neg at h1
    rw [h1, max_eq_right] <;> simp [h]

/-! Stickiness of the lump-sum bookkeeping. -/

lemma hasTaken_step (P : Params) (st : SimState) (i : ℕ)
    (h : st.hasTakenLumpSum = true) : (nextState P st i).hasTakenLumpSum = true := by
  simp [nextState, h]

lemma hasTaken_mono (P : Params) {i j : ℕ} (hij : i ≤ j)
    (h : (stateAt P i).hasTakenLumpSum = true) :
    (stateAt P j).hasTakenLumpSum = true := by
  induction j with
  | zero =>
    have : i = 0 := Nat.le_zero.mp hij
    rw [this] at h; exact h
  | succ m ih =>
    rcases Nat.lt_or_ge i (m + 1) with hlt | hge
    · have hm := ih (by omega)
      rw [stateAt_succ]; exact hasTaken_step P _ m hm
    · have : i = m + 1 := by omega
      rw [this] at h; exact h

lemma lumpFires_hasTaken (P : Params) (st : SimState) (i : ℕ)
    (h : lumpFires P st i = true) : (nextState P st i).hasTakenLumpSum = true := by
  simp [nextState, h]

lemma lumpFires_false_of_taken (P : Params) (st : SimState) (i : ℕ)
    (h : st.hasTakenLumpSum = true) : lumpFires P st i = false := by
  simp [lumpFires, h]

lemma lumpSumOf_eq_zero_of_taken (P : Params) (st : SimState) (i : ℕ)
    (h : st.hasTakenLumpSum = true) : lumpSumOf P st i = 0 := by
  unfold lumpSumOf
  rw [lumpFires_false_of_taken P st i h]
  simp

lemma lumpFires_unique (P : Params) {j k : ℕ} (hjk : j < k)
    (hj : lumpFires P (stateAt P j) j = true) :
    lumpFires P (stateAt P k) k = false := by
  have h1 : (stateAt P (j + 1)).hasTakenLumpSum = true := by
    rw [stateAt_succ]; exact lumpFires_hasTaken P _ j hj
  have h2 : (stateAt P k).hasTakenLumpSum = true := hasTaken_mono P (by omega) h1
  exact lumpFires_false_of_taken P _ k h2

lemma lumpSumOf_ne_zero_fires (P : Params) (st : SimState) (i : ℕ)
    (h : lumpSumOf P st i ≠ 0) : lumpFires P st i = true := by
  by_contra hf
  have : lumpFires P st i = false := by simpa using hf
  apply h
  unfold lumpSumOf
  rw [this]
  simp

lemma cash_eq_sum (P : Params) :
    ∀ j, (stateAt P j).taxFreeCashReceived =
      (Finset.range j).sum (fun i => lumpSumOf P (stateAt P i) i) := by
  intro j
  induction j with
  | zero => simp [stateAt, initState]
  | succ m ih =>
    rw [stateAt_succ]
    show cashReceivedAfter P (stateAt P m) m = _
    unfold cashReceivedAfter
    rw [Finset.sum_range_succ]
    split_ifs with hf
    · have hzero : ∀ i ∈ Finset.range m, lumpSumOf P (stateAt P i) i = 0 := by
        intro i hi
        simp only [Finset.mem_range] at hi
        by_contra hne
        have hfi := lumpSumOf_ne_zero_fires P _ i hne
        have := lumpFires_unique P hi hfi
        rw [this] at hf
        exact Bool.false_ne_true hf
      rw [Finset.sum_eq_zero hzero]
      simp [lumpSumOf, hf]
    · have hb : lumpFires P (stateAt P m) m = false := by simpa using hf
      rw [ih]
      have : lumpSumOf P (stateAt P m) m = 0 := by
        unfold lumpSumOf; rw [hb]; simp
      rw [this, add_zero]

/-! Facts about defaulted inputs and rounding. -/

lemma jsOrQ_nonneg (v : Option ℚ) (h : 0 ≤ v.getD 0) : 0 ≤ jsOrQ v 0 := by
  cases v with
  | none => exact le_refl 0
  | some x =>
    simp only [jsOrQ]
    split_ifs
    · exact le_refl 0
    · simpa using h

lemma mkParams_pot0_nonneg (bd : BaseData) (evs : List LifeEvent) (cy : ℤ)
    (hnn : nonnegCurrencyFields bd) : 0 ≤ (mkParams bd evs cy).pensionPot0 :=
  jsOrQ_nonneg _ hnn.1

lemma mkParams_contrib_nonneg (bd : BaseData) (evs : List LifeEvent) (cy : ℤ)
    (hnn : nonnegCurrencyFields bd) : 0 ≤ (mkParams bd evs cy).annualContribution := by
  show 0 ≤ jsOrQ bd.monthly_contribution 0 * 12
  have := jsOrQ_nonneg bd.monthly_contribution hnn.2.1
  linarith

lemma jsRound_nonneg (q : ℚ) (h : 0 ≤ q) : 0 ≤ jsRound q := by
  unfold jsRound
  rw [Int.le_floor]
  push_cast
  linarith

/-! Behaviour of the rows once funds are depleted. -/

lemma not_drawdownActive_of_depleted (P : Params) (st : SimState) (i : ℕ)
    (h : st.fundsDepleted = true) : ¬ drawdownActive P st i := by
  intro hact
  rw [hact.2.1] at h
  exact Bool.false_ne_true h

lemma drawdownOf_depleted (P : Params) (st : SimState) (i : ℕ)
    (h : st.fundsDepleted = true) : drawdownOf P st i = 0 := by
  unfold drawdownOf
  rw [if_neg (not_drawdownActive_of_depleted P st i h)]

lemma shortfallOf_depleted (P : Params) (st : SimState) (i : ℕ)
    (h : st.fundsDepleted = true) : shortfallOf P st i = 0 := by
  unfold shortfallOf
  rw [if_neg]
  intro hc
  exact not_drawdownActive_of_depleted P st i h hc.1

lemma investmentGrowthOf_depleted (P : Params) (st : SimState) (i : ℕ)
    (h : st.fundsDepleted = true) : investmentGrowthOf P st i = 0 := by
  unfold investmentGrowthOf
  rw [if_neg]
  intro hc
  rw [h] at hc
  exact absurd hc.2 (by simp)

lemma contributionOf_retired (P : Params) (i : ℕ) (h : isRetired P i = true) :
    contributionOf P i = 0 := by
  unfold contributionOf
  rw [if_neg]
  intro hc
  rw [h] at hc
  exact absurd hc.1 (by simp)

lemma lumpFires_false_of_notJust (P : Params) (st : SimState) (i : ℕ)
    (h : justRetired P st i = false) : lumpFires P st i = false := by
  unfold lumpFires
  rw [h]
  simp

lemma depleted_justRetired_false (P : Params) :
    ∀ j, (stateAt P j).fundsDepleted = true → justRetired P (stateAt P j) j = false := by
  intro j h
  match j with
  | 0 => exact absurd h (by simp [stateAt, initState])
  | Nat.succ m =>
    have hret : (stateAt P (m + 1)).hasRetired = isRetired P m := rfl
    have hd : depletedAfter P (stateAt P m) m = true := h
    have hrm : isRetired P m = true := by
      simp only [depletedAfter, Bool.or_eq_true, Bool.and_eq_true] at hd
      rcases hd with hd | ⟨⟨hr, _⟩, _⟩
      · exact depleted_implies_retired P m hd
      · exact hr
    unfold justRetired
    rw [hret, hrm]
    simp

lemma lumpSumOf_depleted (P : Params) (j : ℕ)
    (h : (stateAt P j).fundsDepleted = true) : lumpSumOf P (stateAt P j) j = 0 := by
  unfold lumpSumOf
  rw [lumpFires_false_of_notJust P _ j (depleted_justRetired_false P j h)]
  simp

lemma lifeEventCostAt_nil (P : Params) (h : P.events = []) (i : ℕ) :
    lifeEventCostAt P i = 0 := by
  unfold lifeEventCostAt
  cases ageAt P i <;> simp [h]

lemma potAfterEvents_nil (P : Params) (st : SimState) (i : ℕ) (h : P.events = []) :
    potAfterEvents P st i = potAfterDD P st i := by
  unfold potAfterEvents
  rw [lifeEventCostAt_nil P h i]
  simp

lemma depleted_pot_zero (P : Params) (hev : P.events = []) :
    ∀ j, (stateAt P j).fundsDepleted = true → (stateAt P j).pensionPot = 0 := by
  intro j
  induction j with
  | zero => intro h; exact absurd h (by simp [stateAt, initState])
  | succ m ih =>
    intro h
    have hd : depletedAfter P (stateAt P m) m = true := h
    show potAfterEvents P (stateAt P m) m = 0
    rw [potAfterEvents_nil P _ m hev]
    by_cases hm : (stateAt P m).fundsDepleted = true
    · have hpot := ih hm
      have hg := investmentGrowthOf_depleted P _ m hm
      have hdd := drawdownOf_depleted P _ m hm
      have hco := contributionOf_retired P m (depleted_implies_retired P m hm)
      have hls := lumpSumOf_depleted P m hm
      rw [potAfterDD_eq, hpot, hg, hdd, hco, hls]
      ring
    · have hmf : (stateAt P m).fundsDepleted = false := by simpa using hm
      simp only [depletedAfter, hmf, Bool.false_or, Bool.and_eq_true,
        decide_eq_true_eq] at hd
      obtain ⟨⟨hr, hgap⟩, hlt⟩ := hd
      have hact : drawdownActive P (stateAt P m) m := ⟨hr, hmf, hgap⟩
      unfold potAfterDD drawdownOf
      rw [if_pos hact, if_neg (not_le.mpr hlt)]
      ring

/-! The life-event fold as a filter-and-sum, and the clamp structure of the
balance update. -/

lemma foldl_filter_sum (g : LifeEvent → ℚ) (p : LifeEvent → Bool) :
    ∀ (l : List LifeEvent) (acc : ℚ),
      l.foldl (fun acc e => if p e then acc + g e else acc) acc =
        acc + ((l.filter p).map g).sum := by
  intro l
  induction l with
  | nil => intro acc; simp
  | cons e t ih =>
    intro acc
    simp only [List.foldl_cons]
    by_cases hp : p e = true
    · rw [if_pos hp, ih]
      simp [List.filter_cons, hp]
      ring
    · rw [if_neg (by simpa using hp), ih]
      simp [List.filter_cons, hp]

lemma lifeEventCostAt_eq_code (P : Params) (i : ℕ) :
    lifeEventCostAt P i = codeSelectedCost P.events (ageAt P i) (yearAt P i) := by
  unfold lifeEventCostAt codeSelectedCost
  cases ageAt P i with
  | none => rfl
  | some a =>
    dsimp only
    rw [foldl_filter_sum]
    simp

lemma potAfterEvents_ite (P : Params) (st : SimState) (i : ℕ) :
    potAfterEvents P st i =
      if 0 < lifeEventCostAt P i then max 0 (potAfterDD P st i - lifeEventCostAt P i)
      else potAfterDD P st i - lifeEventCostAt P i := by
  by_cases hc : lifeEventCostAt P i = 0
  · unfold potAfterEvents
    rw [hc]
    simp
  · unfold potAfterEvents
    rw [if_pos hc]

/-! Replacing the event list leaves everything except the event costs
unchanged. -/

lemma potAfterDD_events (P : Params) (l : List LifeEvent) (st : SimState) (i : ℕ) :
    potAfterDD { P with events := l } st i = potAfterDD P st i := rfl

lemma nextState_events (P : Params) (l : List LifeEvent) (st : SimState) (i : ℕ)
    (hc : lifeEventCostAt { P with events := l } i = lifeEventCostAt P i) :
    nextState { P with events := l } st i = nextState P st i := by
  unfold nextState
  congr 1
  unfold potAfterEvents
  rw [hc, potAfterDD_events]

lemma stateAt_events_frame (P : Params) (l : List LifeEvent) :
    ∀ j, (∀ i, i < j → lifeEventCostAt { P with events := l } i = lifeEventCostAt P i) →
      stateAt { P with events := l } j = stateAt P j := by
  intro j
  induction j with
  | zero => intro _; rfl
  | succ m ih =>
    intro hc
    rw [stateAt_succ, stateAt_succ, ih (fun i hi => hc i (by omega))]
    exact nextState_events P l _ m (hc m (by omega))

lemma mkParams_events (bd : BaseData) (l : List LifeEvent) (cy : ℤ) :
    mkParams bd l cy = { mkParams bd [] cy with events := l } := rfl

lemma cost_single_event (bd : BaseData) (cy : ℤ) (e : LifeEvent) (a : ℤ) (i : ℕ)
    (hage : bd.currentAge = some a) (hyear : e.event_year = none) :
    lifeEventCostAt (mkParams bd [e] cy) i =
      if e.event_age = some (a + i) then e.cost.getD 0 else 0 := by
  unfold lifeEventCostAt ageAt
  have h1 : (mkParams bd [e] cy).currentAge = some a := hage
  have h2 : (mkParams bd [e] cy).events = [e] := rfl
  rw [h1, h2]
  simp only [Option.map_some', List.foldl_cons, List.foldl_nil]
  unfold eventMatches
  rw [hyear]
  by_cases hm : e.event_age = some (a + i)
  · rw [if_pos hm]
    simp [hm]
  · rw [if_neg hm]
    simp [hm]

/-! Exact form of the pot at the crystallisation point. -/

lemma potAfterContrib_eq (P : Params) (st : SimState) (i : ℕ) :
    potAfterContrib P st i = st.pensionPot + investmentGrowthOf P st i + contributionOf P i := by
  unfold potAfterContrib potAfterGrowth
  ring

/-! Closed form and monotonicity of the tax calculator. -/

lemma eff_le (t : ℚ) : effectiveAllowanceOf t ≤ PERSONAL_ALLOWANCE := by
  unfold effectiveAllowanceOf PERSONAL_ALLOWANCE
  split_ifs with h
  · apply max_le (by norm_num) (by linarith)
  · exact le_refl _

set_option maxHeartbeats 1000000 in
lemma bands_eval (r : ℚ) (hrpos : 0 < r) :
    (if r ≤ 0 then 0
     else
       let basicBand := min r (BASIC_RATE_THRESHOLD - PERSONAL_ALLOWANCE)
       let tax1 := if basicBand > 0 then basicBand * BASIC_TAX_RATE else 0
       let rem1 := if basicBand > 0 then r - basicBand else r
       let higherBand := min rem1 (HIGHER_RATE_THRESHOLD - BASIC_RATE_THRESHOLD)
       let tax2 := if higherBand > 0 then tax1 + higherBand * HIGHER_TAX_RATE else tax1
       let rem2 := if higherBand > 0 then rem1 - higherBand else rem1
       if rem2 > 0 then tax2 + rem2 * ADDITIONAL_TAX_RATE else tax2) = taxBands r := by
  unfold taxBands PERSONAL_ALLOWANCE BASIC_RATE_THRESHOLD HIGHER_RATE_THRESHOLD
    BASIC_TAX_RATE HIGHER_TAX_RATE ADDITIONAL_TAX_RATE
  rw [if_neg (not_le.mpr hrpos)]
  simp only [min_def, max_def]
  split_ifs <;> linarith

lemma tax_eq_bands (t : ℚ) (h : PERSONAL_ALLOWANCE < t) :
    calculateUKTax t = taxBands (t - effectiveAllowanceOf t) := by
  have heff := eff_le t
  have hrpos : 0 < t - effectiveAllowanceOf t := by linarith
  have hbody := bands_eval (t - effectiveAllowanceOf t) hrpos
  unfold calculateUKTax
  rw [if_neg (not_le.mpr h)]
  exact hbody

set_option maxHeartbeats 1000000 in
lemma taxBands_mono {r1 r2 : ℚ} (h : r1 ≤ r2) : taxBands r1 ≤ taxBands r2 := by
  unfold taxBands BASIC_TAX_RATE HIGHER_TAX_RATE ADDITIONAL_TAX_RATE
    PERSONAL_ALLOWANCE BASIC_RATE_THRESHOLD HIGHER_RATE_THRESHOLD
  simp only [min_def, max_def]
  split_ifs <;> linarith

lemma taxBands_nonneg (r : ℚ) (h : 0 ≤ r) : 0 ≤ taxBands r := by
  unfold taxBands BASIC_TAX_RATE HIGHER_TAX_RATE ADDITIONAL_TAX_RATE
    PERSONAL_ALLOWANCE BASIC_RATE_THRESHOLD HIGHER_RATE_THRESHOLD
  simp only [min_def, max_def]
  split_ifs <;> linarith

lemma eff_antitone {t1 t2 : ℚ} (h : t1 ≤ t2) :
    effectiveAllowanceOf t2 ≤ effectiveAllowanceOf t1 := by
  unfold effectiveAllowanceOf PERSONAL_ALLOWANCE
  split_ifs with h1 h2
  · simp only [max_def]; split_ifs <;> linarith
  · apply max_le (by norm_num) (by linarith)
  · linarith
  · exact le_refl _

lemma calculateUKTax_zero_of_le (x : ℚ) (h : x ≤ PERSONAL_ALLOWANCE) :
    calculateUKTax x = 0 := by
  unfold calculateUKTax; rw [if_pos h]

lemma calculateUKTax_mono {x1 x2 : ℚ} (h : x1 ≤ x2) :
    calculateUKTax x1 ≤ calculateUKTax x2 := by
  rcases le_or_lt x2 PERSONAL_ALLOWANCE with h2 | h2
  · rw [calculateUKTax_zero_of_le x1 (le_trans h h2), calculateUKTax_zero_of_le x2 h2]
  · rcases le_or_lt x1 PERSONAL_ALLOWANCE with h1 | h1
    · rw [calculateUKTax_zero_of_le x1 h1, tax_eq_bands x2 h2]
      apply taxBands_nonneg
      have := eff_le x2
      linarith
    · rw [tax_eq_bands x1 h1, tax_eq_bands x2 h2]
      apply taxBands_mono
      have := eff_antitone h
      linarith

lemma mkParams_spa_zero (bd : BaseData) (evs : List LifeEvent) (cy : ℤ)
    (h : bd.state_pension_amount = some 0) :
    mkParams bd evs cy = mkParams { bd with state_pension_amount := none } evs cy := by
  unfold mkParams
  rw [h]
  simp [jsOrQ]

lemma mkParams_spa_base (bd : BaseData) (evs : List LifeEvent) (cy : ℤ)
    (h : bd.state_pension_amount = some 0) :
    (mkParams bd evs cy).statePensionBase = FULL_STATE_PENSION := by
  show jsOrQ bd.state_pension_amount FULL_STATE_PENSION = FULL_STATE_PENSION
  rw [h]
  simp [jsOrQ]

/-! Claim theorems. -/

/-- C1 (amended): for every profile with non-negative currency fields, every
row satisfies pensionPotEnd = max 0 (pensionPotStart + investmentGrowth +
contribution − lumpSumTaken − drawdown − netLifeEventCost); the equation
holds exactly (without the clamp) in every row whose right-hand side is
non-negative, in particular whenever the life-event expense does not exceed
the available balance.  The unclamped equation of the original claim fails
on rows where a life-event expense is clamped by the pot. -/
theorem C1_conservation_clamped (bd : BaseData) (events : List LifeEvent)
    (currentYear : ℤ) (hnn : nonnegCurrencyFields bd) :
    ∀ r ∈ calculateProjections bd events currentYear,
      r.pensionTotalQ =
        max 0 (r.pensionStartQ + r.investmentGrowthQ + r.pensionContributionQ
          - r.lumpSumQ - r.pensionDrawdownQ - r.lifeEventCostQ) ∧
      (0 ≤ r.pensionStartQ + r.investmentGrowthQ + r.pensionContributionQ
          - r.lumpSumQ - r.pensionDrawdownQ - r.lifeEventCostQ →
        r.pensionTotalQ = r.pensionStartQ + r.investmentGrowthQ + r.pensionContributionQ
          - r.lumpSumQ - r.pensionDrawdownQ - r.lifeEventCostQ) := by
  intro r hr
  obtain ⟨j, hj, rfl⟩ := (mem_calculateProjections bd events currentYear r).mp hr
  have hc := mkParams_contrib_nonneg bd events currentYear hnn
  have hpot : 0 ≤ (stateAt (mkParams bd events currentYear) j).pensionPot :=
    stateAt_pot_nonneg _ (mkParams_pot0_nonneg bd events currentYear hnn) hc j
  have hdd : 0 ≤ potAfterDD (mkParams bd events currentYear) (stateAt _ j) j :=
    potAfterDD_nonneg _ _ j hpot hc
  have hsum : (rowAt (mkParams bd events currentYear) j).pensionStartQ +
      (rowAt (mkParams bd events currentYear) j).investmentGrowthQ +
      (rowAt (mkParams bd events currentYear) j).pensionContributionQ -
      (rowAt (mkParams bd events currentYear) j).lumpSumQ -
      (rowAt (mkParams bd events currentYear) j).pensionDrawdownQ -
      (rowAt (mkParams bd events currentYear) j).lifeEventCostQ =
      potAfterDD (mkParams bd events currentYear)
        (stateAt (mkParams bd events currentYear) j) j -
        lifeEventCostAt (mkParams bd events currentYear) j := by
    rw [rowAt_pensionStartQ, rowAt_growthQ, rowAt_contributionQ, rowAt_lumpSumQ,
      rowAt_drawdownQ, rowAt_lifeEventCostQ, potAfterDD_eq]
  constructor
  · rw [rowAt_pensionTotalQ, potAfterEvents_eq_max _ _ j hdd, hsum]
  · intro hge
    rw [hsum] at hge
    rw [rowAt_pensionTotalQ, potAfterEvents_eq_max _ _ j hdd, hsum, max_eq_right hge]

/-- C2: for every profile with non-negative currency fields, every row of
the output has a non-negative end-of-year pot, both as the exact rational
and as the rounded integer the source emits. -/
theorem C2_pensionPotEnd_nonneg (bd : BaseData) (events : List LifeEvent)
    (currentYear : ℤ) (hnn : nonnegCurrencyFields bd) :
    ∀ r ∈ calculateProjections bd events currentYear,
      0 ≤ r.pensionTotalQ ∧ 0 ≤ r.pensionTotal := by
  intro r hr
  obtain ⟨j, hj, rfl⟩ := (mem_calculateProjections bd events currentYear r).mp hr
  have h1 : 0 ≤ (rowAt (mkParams bd events currentYear) j).pensionTotalQ := by
    rw [rowAt_pensionTotalQ_state]
    exact stateAt_pot_nonneg _ (mkParams_pot0_nonneg bd events currentYear hnn)
      (mkParams_contrib_nonneg bd events currentYear hnn) (j + 1)
  exact ⟨h1, jsRound_nonneg _ h1⟩

/-- C3 (amended): in every row after a row on which fundsDepleted is true,
the engine evaluates no drawdown at all: drawdown and incomeShortfall are
both recorded as 0 (the positive income gap is not recorded as a
shortfall), growth and contributions are 0, the depletion flag stays true,
state pension, tax and life events are still evaluated, and in a run with
no life events the pot is identically 0. -/
theorem C3_after_depletion (bd : BaseData) (events : List LifeEvent) (currentYear : ℤ)
    (i j : ℕ) (hij : i < j) (hj : j ≤ PROJECTION_YEARS)
    (hdep : (rowAt (mkParams bd events currentYear) i).fundsDepleted = true) :
    (rowAt (mkParams bd events currentYear) j).pensionDrawdownQ = 0 ∧
    (rowAt (mkParams bd events currentYear) j).incomeShortfallQ = 0 ∧
    (rowAt (mkParams bd events currentYear) j).investmentGrowthQ = 0 ∧
    (rowAt (mkParams bd events currentYear) j).pensionContributionQ = 0 ∧
    (rowAt (mkParams bd events currentYear) j).fundsDepleted = true ∧
    (rowAt (mkParams bd events currentYear) j).statePensionQ =
      statePensionAt (mkParams bd events currentYear) j ∧
    (rowAt (mkParams bd events currentYear) j).taxesQ =
      calculateUKTax ((rowAt (mkParams bd events currentYear) j).statePensionQ) ∧
    (rowAt (mkParams bd events currentYear) j).lifeEventCostQ =
      codeSelectedCost events (ageAt (mkParams bd events currentYear) j)
        (yearAt (mkParams bd events currentYear) j) ∧
    (events = [] → (rowAt (mkParams bd events currentYear) j).pensionStartQ = 0 ∧
      (rowAt (mkParams bd events currentYear) j).pensionTotalQ = 0) := by
  have hsj : (stateAt (mkParams bd events currentYear) j).fundsDepleted = true := by
    rw [rowAt_fundsDepleted] at hdep
    exact depleted_mono _ (by omega) hdep
  have hret := depleted_implies_retired (mkParams bd events currentYear) j hsj
  refine ⟨?_, ?_, ?_, ?_, ?_, rfl, ?_, ?_, ?_⟩
  · rw [rowAt_drawdownQ]; exact drawdownOf_depleted _ _ j hsj
  · rw [rowAt_shortfallQ]; exact shortfallOf_depleted _ _ j hsj
  · rw [rowAt_growthQ]; exact investmentGrowthOf_depleted _ _ j hsj
  · rw [rowAt_contributionQ]; exact contributionOf_retired _ j hret
  · rw [rowAt_fundsDepleted, stateAt_succ]; exact depleted_step _ _ j hsj
  · rw [rowAt_taxesQ, rowAt_statePensionQ]
    unfold taxableIncomeAt
    rw [drawdownOf_depleted _ _ j hsj, add_zero]
  · rw [rowAt_lifeEventCostQ, lifeEventCostAt_eq_code]
    rfl
  · intro hev
    have hPev : (mkParams bd events currentYear).events = [] := by
      subst hev
      rfl
    constructor
    · rw [rowAt_pensionStartQ]
      exact depleted_pot_zero _ hPev j hsj
    · rw [rowAt_pensionTotalQ_state]
      exact depleted_pot_zero _ hPev (j + 1) (by rw [stateAt_succ]; exact depleted_step _ _ j hsj)

/-- C4 (amended): with a known age, the engine applies exactly the events
whose event_age equals the current age OR whose event_year equals the
current calendar year (with an unknown age it applies no events at all);
the signed amounts of the matching events are summed, a positive sum is
subtracted with the result clamped at 0 and a negative sum is added
unconditionally; consequently a −20000 event at a matched age increases
that row's pot by exactly 20000 relative to the same run without events. -/
theorem C4_life_event_matching (bd : BaseData) (events : List LifeEvent)
    (currentYear : ℤ) (j : ℕ) :
    ((rowAt (mkParams bd events currentYear) j).lifeEventCostQ =
      codeSelectedCost events (ageAt (mkParams bd events currentYear) j)
        (yearAt (mkParams bd events currentYear) j)) ∧
    ((rowAt (mkParams bd events currentYear) j).pensionTotalQ =
      if 0 < (rowAt (mkParams bd events currentYear) j).lifeEventCostQ then
        max 0 ((rowAt (mkParams bd events currentYear) j).pensionStartQ +
          (rowAt (mkParams bd events currentYear) j).investmentGrowthQ +
          (rowAt (mkParams bd events currentYear) j).pensionContributionQ -
          (rowAt (mkParams bd events currentYear) j).lumpSumQ -
          (rowAt (mkParams bd events currentYear) j).pensionDrawdownQ -
          (rowAt (mkParams bd events currentYear) j).lifeEventCostQ)
      else (rowAt (mkParams bd events currentYear) j).pensionStartQ +
          (rowAt (mkParams bd events currentYear) j).investmentGrowthQ +
          (rowAt (mkParams bd events currentYear) j).pensionContributionQ -
          (rowAt (mkParams bd events currentYear) j).lumpSumQ -
          (rowAt (mkParams bd events currentYear) j).pensionDrawdownQ -
          (rowAt (mkParams bd events currentYear) j).lifeEventCostQ) ∧
    (∀ (a : ℤ) (nm : String), bd.currentAge = some a →
      (rowAt (mkParams bd [(⟨nm, some (a + j), none, some (-20000)⟩ : LifeEvent)]
          currentYear) j).pensionTotalQ =
        (rowAt (mkParams bd ([] : List LifeEvent) currentYear) j).pensionTotalQ + 20000) := by
  refine ⟨?_, ?_, ?_⟩
  · rw [rowAt_lifeEventCostQ, lifeEventCostAt_eq_code]
    rfl
  · have hsum : (rowAt (mkParams bd events currentYear) j).pensionStartQ +
        (rowAt (mkParams bd events currentYear) j).investmentGrowthQ +
        (rowAt (mkParams bd events currentYear) j).pensionContributionQ -
        (rowAt (mkParams bd events currentYear) j).lumpSumQ -
        (rowAt (mkParams bd events currentYear) j).pensionDrawdownQ -
        (rowAt (mkParams bd events currentYear) j).lifeEventCostQ =
        potAfterDD (mkParams bd events currentYear)
          (stateAt (mkParams bd events currentYear) j) j -
          lifeEventCostAt (mkParams bd events currentYear) j := by
      rw [rowAt_pensionStartQ, rowAt_growthQ, rowAt_contributionQ, rowAt_lumpSumQ,
        rowAt_drawdownQ, rowAt_lifeEventCostQ, potAfterDD_eq]
    rw [rowAt_pensionTotalQ, potAfterEvents_ite, hsum, rowAt_lifeEventCostQ]
  · intro a nm hage
    set e : LifeEvent := (⟨nm, some (a + j), none, some (-20000)⟩ : LifeEvent) with he
    have hcosts : ∀ i2, i2 < j →
        lifeEventCostAt (mkParams bd [e] currentYear) i2 =
          lifeEventCostAt (mkParams bd ([] : List LifeEvent) currentYear) i2 := by
      intro i2 hi2
      rw [cost_single_event bd currentYear e a i2 hage rfl]
      rw [lifeEventCostAt_nil _ rfl i2]
      rw [if_neg]
      intro hcontra
      rw [he] at hcontra
      simp only [Option.some.injEq, add_right_inj, Int.natCast_inj] at hcontra
      omega
    have hframe : stateAt (mkParams bd [e] currentYear) j =
        stateAt (mkParams bd ([] : List LifeEvent) currentYear) j := by
      rw [mkParams_events bd [e] currentYear]
      apply stateAt_events_frame
      intro i2 hi2
      rw [← mkParams_events bd [e] currentYear, hcosts i2 hi2]
    have hcj : lifeEventCostAt (mkParams bd [e] currentYear) j = -20000 := by
      rw [cost_single_event bd currentYear e a j hage rfl]
      rw [if_pos rfl]
      rfl
    rw [rowAt_pensionTotalQ, rowAt_pensionTotalQ]
    rw [potAfterEvents_ite, potAfterEvents_ite]
    rw [hcj, lifeEventCostAt_nil _ rfl j]
    rw [if_neg (by norm_num), if_neg (by norm_num)]
    rw [hframe]
    rw [mkParams_events bd [e] currentYear, potAfterDD_events]
    ring

/-- C5: the fundsDepleted flag is sticky within one run: if row i of the
output sequence has fundsDepleted true then so does every later row j. -/
theorem C5_fundsDepleted_sticky (bd : BaseData) (events : List LifeEvent)
    (currentYear : ℤ) (i j : ℕ)
    (hi : i < (calculateProjections bd events currentYear).length)
    (hj : j < (calculateProjections bd events currentYear).length) (hij : i ≤ j)
    (h : ((calculateProjections bd events currentYear).get ⟨i, hi⟩).fundsDepleted = true) :
    ((calculateProjections bd events currentYear).get ⟨j, hj⟩).fundsDepleted = true := by
  rw [calculateProjections_get] at h ⊢
  rw [rowAt_fundsDepleted] at h ⊢
  exact depleted_mono _ (by omega) h

/-- C6: for a profile with non-negative currency fields, the tax-free lump
sum is crystallised at most once per run (two rows with a non-zero lump sum
coincide), never when lumpSumAlreadyTaken is set, and when it fires it does
so on the retirement-transition row with value taxFreeLumpSumFraction times
the pot after that year's growth and contribution; the drawdown never
exceeds the pot left after the lump sum is removed; the lump sum is counted
in totalIncome, excluded from the taxable base, and carried into net worth
as cash-on-hand. -/
theorem C6_lump_sum_crystallisation (bd : BaseData) (events : List LifeEvent)
    (currentYear : ℤ) (hnn : nonnegCurrencyFields bd) (j k : ℕ) :
    ((rowAt (mkParams bd events currentYear) j).lumpSumQ ≠ 0 →
      (rowAt (mkParams bd events currentYear) k).lumpSumQ ≠ 0 → j = k) ∧
    (bd.lump_sum_taken = some true →
      (rowAt (mkParams bd events currentYear) j).lumpSumQ = 0) ∧
    ((rowAt (mkParams bd events currentYear) j).lumpSumQ ≠ 0 →
      justRetired (mkParams bd events currentYear)
        (stateAt (mkParams bd events currentYear) j) j = true ∧
      (stateAt (mkParams bd events currentYear) j).hasTakenLumpSum = false ∧
      (rowAt (mkParams bd events currentYear) j).lumpSumQ = TAX_FREE_LUMP_SUM_RATE *
        ((rowAt (mkParams bd events currentYear) j).pensionStartQ +
         (rowAt (mkParams bd events currentYear) j).investmentGrowthQ +
         (rowAt (mkParams bd events currentYear) j).pensionContributionQ)) ∧
    (justRetired (mkParams bd events currentYear)
        (stateAt (mkParams bd events currentYear) j) j = true →
      (stateAt (mkParams bd events currentYear) j).hasTakenLumpSum = false →
      (rowAt (mkParams bd events currentYear) j).lumpSumQ = TAX_FREE_LUMP_SUM_RATE *
        ((rowAt (mkParams bd events currentYear) j).pensionStartQ +
         (rowAt (mkParams bd events currentYear) j).investmentGrowthQ +
         (rowAt (mkParams bd events currentYear) j).pensionContributionQ)) ∧
    ((rowAt (mkParams bd events currentYear) j).pensionDrawdownQ ≤
      (rowAt (mkParams bd events currentYear) j).pensionStartQ +
      (rowAt (mkParams bd events currentYear) j).investmentGrowthQ +
      (rowAt (mkParams bd events currentYear) j).pensionContributionQ -
      (rowAt (mkParams bd events currentYear) j).lumpSumQ) ∧
    ((rowAt (mkParams bd events currentYear) j).totalIncomeQ =
      (rowAt (mkParams bd events currentYear) j).statePensionQ +
      (rowAt (mkParams bd events currentYear) j).pensionDrawdownQ +
      (rowAt (mkParams bd events currentYear) j).lumpSumQ) ∧
    ((rowAt (mkParams bd events currentYear) j).taxesQ = calculateUKTax
      ((rowAt (mkParams bd events currentYear) j).statePensionQ +
       (rowAt (mkParams bd events currentYear) j).pensionDrawdownQ)) ∧
    ((rowAt (mkParams bd events currentYear) j).netWorthQ =
      (rowAt (mkParams bd events currentYear) j).pensionTotalQ +
      (rowAt (mkParams bd events currentYear) j).propertyEquityQ +
      (Finset.range (j + 1)).sum
        (fun i2 => (rowAt (mkParams bd events currentYear) i2).lumpSumQ)) := by
  have hc := mkParams_contrib_nonneg bd events currentYear hnn
  have hp0 := mkParams_pot0_nonneg bd events currentYear hnn
  refine ⟨?_, ?_, ?_, ?_, ?_, rfl, rfl, ?_⟩
  · intro hj hk
    rw [rowAt_lumpSumQ] at hj hk
    have hfj := lumpSumOf_ne_zero_fires _ _ j hj
    have hfk := lumpSumOf_ne_zero_fires _ _ k hk
    by_contra hne
    rcases Nat.lt_or_ge j k with hlt | hge
    · rw [lumpFires_unique _ hlt hfj] at hfk
      exact Bool.false_ne_true hfk
    · have hlt : k < j := by omega
      rw [lumpFires_unique _ hlt hfk] at hfj
      exact Bool.false_ne_true hfj
  · intro h
    have h0 : (stateAt (mkParams bd events currentYear) 0).hasTakenLumpSum = true := by
      show decide (bd.lump_sum_taken = some true) = true
      rw [h]
      rfl
    rw [rowAt_lumpSumQ]
    exact lumpSumOf_eq_zero_of_taken _ _ j (hasTaken_mono _ (Nat.zero_le j) h0)
  · intro hne
    rw [rowAt_lumpSumQ] at hne
    have hf := lumpSumOf_ne_zero_fires _ _ j hne
    have hparts := hf
    simp only [lumpFires, Bool.and_eq_true, Bool.not_eq_true', decide_eq_true_eq] at hparts
    obtain ⟨⟨hjr, hnt⟩, _⟩ := hparts
    refine ⟨hjr, hnt, ?_⟩
    rw [rowAt_lumpSumQ, rowAt_pensionStartQ, rowAt_growthQ, rowAt_contributionQ]
    unfold lumpSumOf
    rw [if_pos hf, potAfterContrib_eq]
    ring
  · intro hjr hnt
    rw [rowAt_lumpSumQ, rowAt_pensionStartQ, rowAt_growthQ, rowAt_contributionQ,
      ← potAfterContrib_eq]
    unfold lumpSumOf
    by_cases hf : lumpFires (mkParams bd events currentYear)
        (stateAt (mkParams bd events currentYear) j) j = true
    · rw [if_pos hf]
      ring
    · rw [if_neg hf]
      have hpac0 : potAfterContrib (mkParams bd events currentYear)
          (stateAt (mkParams bd events currentYear) j) j = 0 := by
        have hnonneg := potAfterContrib_nonneg (mkParams bd events currentYear)
          (stateAt (mkParams bd events currentYear) j) j
          (stateAt_pot_nonneg _ hp0 hc j) hc
        by_contra hne
        apply hf
        have hpos : potAfterContrib (mkParams bd events currentYear)
            (stateAt (mkParams bd events currentYear) j) j > 0 :=
          lt_of_le_of_ne hnonneg (Ne.symm hne)
        unfold lumpFires
        rw [hjr, hnt]
        simp [hpos]
      rw [hpac0]
      ring
  · have hlp : (rowAt (mkParams bd events currentYear) j).pensionStartQ +
        (rowAt (mkParams bd events currentYear) j).investmentGrowthQ +
        (rowAt (mkParams bd events currentYear) j).pensionContributionQ -
        (rowAt (mkParams bd events currentYear) j).lumpSumQ =
        potAfterLump (mkParams bd events currentYear)
          (stateAt (mkParams bd events currentYear) j) j := by
      rw [rowAt_pensionStartQ, rowAt_growthQ, rowAt_contributionQ, rowAt_lumpSumQ]
      unfold potAfterLump
      rw [potAfterContrib_eq]
    rw [rowAt_drawdownQ, hlp]
    have hpal := potAfterLump_nonneg (mkParams bd events currentYear)
      (stateAt (mkParams bd events currentYear) j) j
      (stateAt_pot_nonneg _ hp0 hc j) hc
    unfold drawdownOf
    split_ifs with h1 h2
    · exact h2
    · exact le_refl _
    · exact hpal
  · rw [rowAt_netWorthQ]
    unfold netWorthAt
    have hcash := cash_eq_sum (mkParams bd events currentYear) (j + 1)
    show potAfterEvents (mkParams bd events currentYear)
        (stateAt (mkParams bd events currentYear) j) j +
      propertyEquityAt (mkParams bd events currentYear)
        (stateAt (mkParams bd events currentYear) j) j +
      cashReceivedAfter (mkParams bd events currentYear)
        (stateAt (mkParams bd events currentYear) j) j = _
    congr 1

/-- C7: the tax function is zero at 0 and at or below the personal
allowance, and is monotone for all incomes x2 > x1 ≥ 0, including across
the allowance-taper region. -/
theorem C7_tax_zero_allowance_monotone :
    calculateUKTax 0 = 0 ∧
    (∀ x : ℚ, x ≤ PERSONAL_ALLOWANCE → calculateUKTax x = 0) ∧
    (∀ x1 x2 : ℚ, 0 ≤ x1 → x1 < x2 → calculateUKTax x1 ≤ calculateUKTax x2) := by
  refine ⟨?_, ?_, ?_⟩
  · apply calculateUKTax_zero_of_le
    norm_num [PERSONAL_ALLOWANCE]
  · exact fun x h => calculateUKTax_zero_of_le x h
  · exact fun x1 x2 _ h => calculateUKTax_mono (le_of_lt h)

/-- C8 (amended): absent optional currency fields default to 0 with two
exceptions: statePensionAnnualAmount defaults to the full state pension and
annualIncomeNeeded defaults to 25000 (not 0); in particular a profile with
no annualIncomeNeeded is simulated with an inflation-adjusted income need
of 25000 in every retired row. -/
theorem C8_absent_field_defaults (bd : BaseData) (events : List LifeEvent)
    (currentYear : ℤ) :
    (bd.total_pension_value = none → (mkParams bd events currentYear).pensionPot0 = 0) ∧
    (bd.monthly_contribution = none →
      (mkParams bd events currentYear).annualContribution = 0) ∧
    (bd.property_value = none → (mkParams bd events currentYear).propertyValue = 0) ∧
    (bd.total_debt = none → (mkParams bd events currentYear).mortgageBalance0 = 0) ∧
    (bd.state_pension_amount = none →
      (mkParams bd events currentYear).statePensionBase = FULL_STATE_PENSION) ∧
    (bd.annual_income_needed = none →
      (mkParams bd events currentYear).annualIncomeNeeded = 25000) ∧
    (∀ j : ℕ, bd.annual_income_needed = none →
      isRetired (mkParams bd events currentYear) j = true →
      (rowAt (mkParams bd events currentYear) j).incomeNeededQ =
        25000 * (1 + INFLATION_RATE) ^ j) := by
  refine ⟨?_, ?_, ?_, ?_, ?_, ?_, ?_⟩
  · intro h
    show jsOrQ bd.total_pension_value 0 = 0
    rw [h]
    rfl
  · intro h
    show jsOrQ bd.monthly_contribution 0 * 12 = 0
    rw [h]
    norm_num [jsOrQ]
  · intro h
    show jsOrQ bd.property_value 0 = 0
    rw [h]
    rfl
  · intro h
    show jsOrQ bd.total_debt 0 = 0
    rw [h]
    rfl
  · intro h
    show jsOrQ bd.state_pension_amount FULL_STATE_PENSION = FULL_STATE_PENSION
    rw [h]
    rfl
  · intro h
    show jsOrQ bd.annual_income_needed 25000 = 25000
    rw [h]
    rfl
  · intro j h hret
    rw [rowAt_incomeNeededQ]
    unfold incomeNeededAt
    rw [if_pos hret]
    show jsOrQ bd.annual_income_needed 25000 * (1 + INFLATION_RATE) ^ j = _
    rw [h]
    rfl

/-- C9 (amended): the engine performs no input validation at all: for every
profile, including one whose retirement age is below any sane minimum, it
returns a full projection sequence of PROJECTION_YEARS + 1 rows rather than
failing with a validation error (growth and inflation rates are module
constants, not inputs, so out-of-range rates cannot even be supplied). -/
theorem C9_no_validation (bd : BaseData) (events : List LifeEvent) (currentYear : ℤ) :
    (calculateProjections bd events currentYear).length = PROJECTION_YEARS + 1 :=
  calculateProjections_length bd events currentYear

/-- C10: a supplied state-pension amount of exactly 0 is treated the same
as an absent one: the whole projection equals the run with the field
removed, the state-pension base is the full state pension 11502, and every
row at or beyond state pension age records the inflation-adjusted full
state pension, which is strictly positive. -/
theorem C10_zero_state_pension_as_absent (bd : BaseData) (events : List LifeEvent)
    (currentYear : ℤ) (h : bd.state_pension_amount = some 0) :
    calculateProjections bd events currentYear =
      calculateProjections { bd with state_pension_amount := none } events currentYear ∧
    (mkParams bd events currentYear).statePensionBase = FULL_STATE_PENSION ∧
    (∀ (a : ℤ) (j : ℕ), bd.currentAge = some a → STATE_PENSION_AGE ≤ a + j →
      (rowAt (mkParams bd events currentYear) j).statePensionQ =
        FULL_STATE_PENSION * (1 + INFLATION_RATE) ^ j ∧
      0 < (rowAt (mkParams bd events currentYear) j).statePensionQ) := by
  refine ⟨?_, mkParams_spa_base bd events currentYear h, ?_⟩
  · unfold calculateProjections
    rw [mkParams_spa_zero bd events currentYear h]
  · intro a j hage hsp
    have hsA : isStatePensionAge (mkParams bd events currentYear) j = true := by
      unfold isStatePensionAge ageAt
      have h1 : (mkParams bd events currentYear).currentAge = some a := hage
      rw [h1]
      simp only [Option.map_some']
      exact decide_eq_true hsp
    have hval : (rowAt (mkParams bd events currentYear) j).statePensionQ =
        FULL_STATE_PENSION * (1 + INFLATION_RATE) ^ j := by
      rw [rowAt_statePensionQ]
      unfold statePensionAt
      rw [if_pos hsA, mkParams_spa_base bd events currentYear h]
    refine ⟨hval, ?_⟩
    rw [hval]
    apply mul_pos
    · norm_num [FULL_STATE_PENSION]
    · apply pow_pos
      norm_num [INFLATION_RATE]

/-! Concrete evaluations: counterexamples and witnesses.  The arithmetic
definitions on ℚ are made transparent so the kernel can evaluate the
simulation on the concrete inputs defined above. -/

attribute [local semireducible] Rat.add Rat.sub Rat.mul Rat.inv Rat.ofScientific

/-- C1 counterexample: in the run of bdRet with the 10000 expense of evRet,
row 0 has pensionPotEnd = 0 (the expense is clamped by the pot) while the
unclamped conservation sum is 1000 + 0 + 0 − 0 − 498 − 10000 = −9498, so
the exact conservation equation of the claim fails on this output row. -/
theorem C1_cex_conservation_fails :
    rowAt (mkParams bdRet evRet 2025) 0 ∈ calculateProjections bdRet evRet 2025 ∧
    (rowAt (mkParams bdRet evRet 2025) 0).pensionTotalQ ≠
      (rowAt (mkParams bdRet evRet 2025) 0).pensionStartQ +
      (rowAt (mkParams bdRet evRet 2025) 0).investmentGrowthQ +
      (rowAt (mkParams bdRet evRet 2025) 0).pensionContributionQ -
      (rowAt (mkParams bdRet evRet 2025) 0).lumpSumQ -
      (rowAt (mkParams bdRet evRet 2025) 0).pensionDrawdownQ -
      (rowAt (mkParams bdRet evRet 2025) 0).lifeEventCostQ := by
  constructor
  · exact (mem_calculateProjections bdRet evRet 2025 _).mpr ⟨0, Nat.zero_le _, rfl⟩
  · decide

/-- C1 witness: the amended clamped conservation equation, instantiated on
the same clamped row. -/
theorem C1_conservation_clamped_witness :
    (rowAt (mkParams bdRet evRet 2025) 0).pensionTotalQ =
      max 0 ((rowAt (mkParams bdRet evRet 2025) 0).pensionStartQ +
        (rowAt (mkParams bdRet evRet 2025) 0).investmentGrowthQ +
        (rowAt (mkParams bdRet evRet 2025) 0).pensionContributionQ -
        (rowAt (mkParams bdRet evRet 2025) 0).lumpSumQ -
        (rowAt (mkParams bdRet evRet 2025) 0).pensionDrawdownQ -
        (rowAt (mkParams bdRet evRet 2025) 0).lifeEventCostQ) :=
  (C1_conservation_clamped bdRet evRet 2025 (by decide)
    (rowAt (mkParams bdRet evRet 2025) 0)
    ((mem_calculateProjections bdRet evRet 2025 _).mpr ⟨0, Nat.zero_le _, rfl⟩)).1

/-- C2 witness: non-negativity of the pot on a concrete clamped row. -/
theorem C2_pensionPotEnd_nonneg_witness :
    0 ≤ (rowAt (mkParams bdRet evRet 2025) 0).pensionTotalQ :=
  (C2_pensionPotEnd_nonneg bdRet evRet 2025 (by decide)
    (rowAt (mkParams bdRet evRet 2025) 0)
    ((mem_calculateProjections bdRet evRet 2025 _).mpr ⟨0, Nat.zero_le _, rfl⟩)).1

/-- C3 counterexample: in the run of bdDep with the age-72 windfall of
evDep, funds deplete on row 0; row 1 still has a positive income gap but
records incomeShortfall = 0, and row 2 ends with a pot of 5000, not 0 —
both halves of the original claim fail after depletion. -/
theorem C3_cex_after_depletion :
    (rowAt (mkParams bdDep evDep 2025) 0).fundsDepleted = true ∧
    0 < incomeGapAt (mkParams bdDep evDep 2025) 1 ∧
    (rowAt (mkParams bdDep evDep 2025) 1).incomeShortfallQ = 0 ∧
    (rowAt (mkParams bdDep evDep 2025) 2).pensionTotalQ = 5000 := by
  decide

/-- C3 witness: the amended description instantiated two rows after a
depletion with no life events: shortfall 0 and pot 0. -/
theorem C3_after_depletion_witness :
    (rowAt (mkParams bdDep [] 2025) 2).incomeShortfallQ = 0 ∧
    (rowAt (mkParams bdDep [] 2025) 2).pensionTotalQ = 0 := by
  have h := C3_after_depletion bdDep [] 2025 0 2 (by norm_num)
    (by norm_num [PROJECTION_YEARS]) (by decide)
  exact ⟨h.2.1, (h.2.2.2.2.2.2.2.2 rfl).2⟩

/-- C4 counterexample: with a known age (50), the engine applies the evC4
event through its year trigger (cost −20000 on row 3) although its trigger
age matches no simulated age, while the spec's selection rule applies
nothing; with an unknown age the engine applies nothing although the
spec's rule would apply the year-matching evC4b event. -/
theorem C4_cex_event_selection :
    (rowAt (mkParams bdC4 evC4 2025) 3).lifeEventCostQ = -20000 ∧
    specSelectedCost evC4 (ageAt (mkParams bdC4 evC4 2025) 3)
      (yearAt (mkParams bdC4 evC4 2025) 3) = 0 ∧
    specSelectedCost evC4b (none : Option ℤ) 2025 = -20000 ∧
    (rowAt (mkParams bdC4b evC4b 2025) 0).lifeEventCostQ = 0 := by
  decide

/-- C4 witness: the windfall clause instantiated at age 50, row 10: the
−20000 event at age 60 raises that row's pot by exactly 20000. -/
theorem C4_life_event_matching_witness :
    (rowAt (mkParams bdC4
        [(⟨"gift", some (50 + (10 : ℕ)), none, some (-20000)⟩ : LifeEvent)] 2025)
      10).pensionTotalQ =
      (rowAt (mkParams bdC4 ([] : List LifeEvent) 2025) 10).pensionTotalQ + 20000 :=
  (C4_life_event_matching bdC4 [] 2025 10).2.2 50 "gift" rfl

/-- C5 witness: stickiness instantiated on the depleting run bdDep: row 0
is depleted, hence so is row 3. -/
theorem C5_fundsDepleted_sticky_witness :
    ((calculateProjections bdDep [] 2025).get
      ⟨3, by rw [calculateProjections_length]; norm_num [PROJECTION_YEARS]⟩).fundsDepleted
      = true :=
  C5_fundsDepleted_sticky bdDep [] 2025 0 3
    (by rw [calculateProjections_length]; norm_num [PROJECTION_YEARS])
    (by rw [calculateProjections_length]; norm_num [PROJECTION_YEARS])
    (by norm_num)
    (by rw [calculateProjections_get]; decide)

/-- C6 witness: the scenario of the spec: a pot reaching exactly 200000 at
the retirement row yields a lump sum of 50000 there, counted in that row's
total income. -/
theorem C6_lump_sum_crystallisation_witness :
    (rowAt (mkParams bdC6 [] 2025) 5).totalIncomeQ =
      (rowAt (mkParams bdC6 [] 2025) 5).statePensionQ +
      (rowAt (mkParams bdC6 [] 2025) 5).pensionDrawdownQ +
      (rowAt (mkParams bdC6 [] 2025) 5).lumpSumQ ∧
    (rowAt (mkParams bdC6 [] 2025) 5).lumpSumQ = 50000 := by
  refine ⟨(C6_lump_sum_crystallisation bdC6 [] 2025 (by decide) 5 5).2.2.2.2.2.1, ?_⟩
  decide

/-- C7 witness: tax is 0 at the allowance and monotone between two concrete
incomes. -/
theorem C7_tax_witness :
    calculateUKTax 12570 = 0 ∧ calculateUKTax 20000 ≤ calculateUKTax 30000 :=
  ⟨C7_tax_zero_allowance_monotone.2.1 12570 (by norm_num [PERSONAL_ALLOWANCE]),
   C7_tax_zero_allowance_monotone.2.2 20000 30000 (by norm_num) (by norm_num)⟩

/-- C8 counterexample: bdC8 has no annualIncomeNeeded, yet its first row is
simulated with an income need of 25000, not 0, and accordingly records a
positive income shortfall of 13498 against the state pension. -/
theorem C8_cex_income_needed_default :
    bdC8.annual_income_needed = none ∧
    (rowAt (mkParams bdC8 [] 2025) 0).incomeNeededQ = 25000 ∧
    (rowAt (mkParams bdC8 [] 2025) 0).incomeNeededQ ≠ 0 ∧
    (rowAt (mkParams bdC8 [] 2025) 0).incomeShortfallQ = 13498 := by
  decide

/-- C8 witness: the amended defaults instantiated on bdC8 at row 0. -/
theorem C8_absent_field_defaults_witness :
    (rowAt (mkParams bdC8 [] 2025) 0).incomeNeededQ =
      25000 * (1 + INFLATION_RATE) ^ 0 :=
  (C8_absent_field_defaults bdC8 [] 2025).2.2.2.2.2.2 0 rfl (by decide)

/-- C9 counterexample: a profile with a retirement age of 1 is accepted:
the engine returns a full 31-row projection sequence whose first row is
already in the Retirement phase, instead of failing with a validation
error. -/
theorem C9_cex_no_retirement_age_validation :
    bdC9.planned_retirement_age = some 1 ∧
    (calculateProjections bdC9 [] 2025).length = 31 ∧
    (rowAt (mkParams bdC9 [] 2025) 0).phase = "Retirement" := by
  refine ⟨rfl, ?_, by decide⟩
  rw [calculateProjections_length]
  rfl

/-- C10 witness: a profile declaring a state pension of exactly 0 is paid
the full state pension 11502 in its first retired row. -/
theorem C10_zero_state_pension_witness :
    (rowAt (mkParams bdC10 evRet 2025) 0).statePensionQ =
      FULL_STATE_PENSION * (1 + INFLATION_RATE) ^ 0 ∧
    0 < (rowAt (mkParams bdC10 evRet 2025) 0).statePensionQ :=
  (C10_zero_state_pension_as_absent bdC10 evRet 2025 rfl).2.2 70 0 rfl
    (by norm_num [STATE_PENSION_AGE])

end PensionMVP
